import Mathlib

/-!
Verification of the packet transfer engine and transports of
`np_struct/transfer.py` (classes `PacketTransfer`, `LoopBack`,
`SerialInterface`, `SocketInterface`).

Byte strings are `List Nat`, Python numbers are `Int`.  Exceptions are
modelled by an inductive `PyErr` that records the Python exception class
together with the values that the raising statement interpolates into the
error message.  Stateful methods are modelled by explicit state passing:
a method of a transport with state type `σ` becomes a function
`σ → ... → (Except PyErr α) × σ`, the second component being the state of
the transport object after the call (Python mutations performed before an
exception is raised persist, so the state is returned in the error case
as well).

The binary struct facility (`np_struct/structures.py`, class `Struct`) is
not part of the sources here; the packet layout contract it provides is
modelled from the spec, see `Variant`, `PktInstance` and the `Modelled
from the spec` comments below.
-/

namespace NpStruct

/-- A Python value as it appears in dictionaries, dict keys and error
messages: an integer (numpy scalars included), a string, a byte string,
or `None`. -/
inductive PyVal where
  | int (n : Int)
  | str (s : String)
  | bytes (bs : List Nat)
  | none
deriving DecidableEq, Repr

/-- A raised Python exception, recording the exception class and the
values interpolated into its message. -/
inductive PyErr where
  /-- `PacketSizeError` raised at transfer.py line 96 with the format
  arguments `(psize, pkt.get_byte_size(), bytes_)`. -/
  | packetSizeError (args : List PyVal)
  /-- `PacketTypeError` raised at transfer.py line 90, naming the
  unrecognized discriminator and the raw bytes received. -/
  | packetTypeError (ptype : PyVal) (received : List Nat)
  /-- `UnboundLocalError`: a local variable was referenced before
  assignment while building an error message. -/
  | unboundLocal (var : String)
  /-- `RuntimeError('Duplicate packet name: ...')`, transfer.py line 63. -/
  | duplicateName (name : String)
  /-- `RuntimeError('Duplicate type fields for ... and ...')`,
  transfer.py line 68. -/
  | duplicateType (first second : String)
  /-- `RuntimeError` raised by `LoopBack.read` on a short buffer,
  transfer.py line 168.  The message has two format slots
  (`... read {} bytes. Recieved: {}`) and the slots hold the values that
  Python actually renders there. -/
  | loopbackTimeout (slots : List PyVal)
  /-- `RuntimeError` raised by `SerialInterface.read` on deadline expiry,
  transfer.py line 216, slots `(timeout, nbytes, atport)`. -/
  | serialTimeout (slots : List PyVal)
  /-- `TimeoutError` raised by `SocketInterface.read`, carrying the
  receive buffer contents. -/
  | socketTimeout (received : List Nat)
  /-- `RuntimeError('Socket is not connected.')`. -/
  | notConnected
  /-- `ValueError` (e.g. `bytes.index` finding no occurrence, or socket
  construction with neither target nor host). -/
  | valueError
deriving DecidableEq, Repr

/-- A Python keyword-argument dictionary: an association list from
string keys to values.  Real Python dicts have unique keys; lemmas that
need this take a `Nodup` hypothesis on the key list. -/
abbrev Params := List (String × PyVal)

/-- Dictionary lookup: value of the first entry with the given key. -/
def dictGet (d : Params) (k : String) : Option PyVal :=
  (d.find? (fun kv => kv.1 = k)).map (fun kv => kv.2)

/-- Membership of a key in a dictionary. -/
def dictHasKey (d : Params) (k : String) : Prop :=
  k ∈ d.map Prod.fst

instance (d : Params) (k : String) : Decidable (dictHasKey d k) := by
  unfold dictHasKey; infer_instance

/-- `d[k] = v`: overwrite every entry with key `k` (Python dicts hold at
most one), appending a new entry when the key is absent. -/
def dictSet (d : Params) (k : String) (v : PyVal) : Params :=
  if k ∈ d.map Prod.fst then
    d.map (fun kv => if kv.1 = k then (k, v) else kv)
  else
    d ++ [(k, v)]

/-- Python's `{**a, **b}`: start from `a` and assign every entry of `b`
in order, so entries of `b` win on key collision. -/
def dictMerge (a b : Params) : Params :=
  b.foldl (fun acc kv => dictSet acc kv.1 kv.2) a

/-- Modelled from the spec: a concrete packet variant as supplied by the
external `Struct` facility (absent from the sources).  Per spec §3/§6 a
variant is a packet layout with a fixed wire discriminator (`disc`,
reported by its header parser on a fresh instance) and, in this model, a
fixed body length in bytes.  `name` is the Python class name
(`pkt.__name__`). -/
structure Variant where
  name : String
  disc : Int
  bodyLen : Nat
deriving DecidableEq, Repr

/-- Modelled from the spec: a packet instance of the `Struct` facility.
The header holds the two mandatory fields of spec §3 — `size` (total
packet length in bytes) and `ptype` (the discriminator, Python attribute
`type`) — each one byte wide in this model, followed by the body bytes.
`vname` records the Python class of the instance. -/
structure PktInstance where
  vname : String
  size : Int
  ptype : Int
  body : List Nat
deriving DecidableEq, Repr

/-- Modelled from the spec: total byte length of a packet
(`Struct.get_size`): two header bytes plus the body. -/
def PktInstance.get_size (p : PktInstance) : Nat :=
  2 + p.body.length

/-- Modelled from the spec: `Struct.unpack` — load the instance's fields
from raw bytes: byte 0 is `size`, byte 1 is `type`, the rest is body. -/
def PktInstance.unpack (p : PktInstance) (bs : List Nat) : PktInstance :=
  { p with
    size := Int.ofNat (bs.getD 0 0)
    ptype := Int.ofNat (bs.getD 1 0)
    body := bs.drop 2 }

/-- Modelled from the spec: `Packet.parse_header(**params)` returns the
dictionary with keys `size` and `type`, decoded from the header bytes
already loaded into the instance, as the pair `(size, type)`. -/
def PktInstance.parse_header (p : PktInstance) (_params : Params) : Int × Int :=
  (p.size, p.ptype)

/-- Modelled from the spec: `Packet.build_header(**params)` is an
optional hook whose default implementation (transfer.py line 31) is
`pass`; the variants of this model use the default. -/
def PktInstance.build_header (p : PktInstance) (_params : Params) : PktInstance :=
  p

/-- Modelled from the spec: constructing a fresh instance of a variant
(`pkt(byte_order=...)`): `Packet.__init__` writes the computed size into
the size field (`set_size(get_size())`), the class declaration sets the
`type` field to the variant's discriminator, and the body bytes default
to zero. -/
def Variant.new (v : Variant) : PktInstance :=
  { vname := v.name
    size := Int.ofNat (2 + v.bodyLen)
    ptype := v.disc
    body := List.replicate v.bodyLen 0 }

/-- Modelled from the spec: `bytes(packet)` — serialize header then body
(spec §6 wire format); every field is stored in one byte, so values are
reduced mod 256. -/
def serialize (p : PktInstance) : List Nat :=
  (p.size % 256).toNat :: (p.ptype % 256).toNat :: p.body.map (fun b => b % 256)

/-- The base packet variant (`self._pkt_class`): header only, no body. -/
def baseVariant : Variant := { name := "Packet", disc := 0, bodyLen := 0 }

/-- `self._pkt_base`, the header-only instance re-used for every read. -/
def basePkt : PktInstance := Variant.new baseVariant

/-- `self._pkt_base_size`: byte length of the base packet's header. -/
def baseSize : Nat := PktInstance.get_size basePkt

/-- Variant-registry lookup: first entry with the given (untyped Python)
key, mirroring `self._pkt_types[k]` / `k in self._pkt_types`. -/
def dictGetV (d : List (PyVal × Variant)) (k : PyVal) : Option Variant :=
  (d.find? (fun kv => kv.1 = k)).map (fun kv => kv.2)

/-- The registry-construction loop of `PacketTransfer.__init__`
(transfer.py lines 61–70): for each subclass, first test
`pkt.__name__ in self._pkt_types` — note this asks whether the class
NAME occurs among the keys of the discriminator→class dictionary — then
obtain the discriminator by parsing the header of a fresh instance and
test it against the same keys. -/
def regStep (acc : List (PyVal × Variant)) : List Variant → Except PyErr (List (PyVal × Variant))
  | [] => .ok acc
  | v :: rest =>
    if (PyVal.str v.name) ∈ acc.map Prod.fst then
      .error (.duplicateName v.name)
    else
      let ptype := (PktInstance.parse_header (Variant.new v) []).2
      match dictGetV acc (.int ptype) with
      | Option.some prev => .error (.duplicateType prev.name v.name)
      | Option.none => regStep (acc ++ [(.int ptype, v)]) rest

/-- Registry construction from the list of subclasses of the base packet
class, in `__subclasses__()` order. -/
def buildRegistry (variants : List Variant) : Except PyErr (List (PyVal × Variant)) :=
  regStep [] variants

/-- The state of a `PacketTransfer` engine after construction:
`byte_order` (popped from the constructor kwargs, default `<`), the
remaining constructor kwargs kept as `self._pkt_header_params`, and the
discriminator→variant registry `self._pkt_types`. -/
structure Engine where
  byte_order : PyVal
  header_params : Params
  pkt_types : List (PyVal × Variant)
deriving DecidableEq, Repr

/-- `PacketTransfer.__init__(pkt_class, **kwargs)`: pop `byte_order`,
keep the remaining kwargs as header params, build the registry. -/
def Engine.init (variants : List Variant) (kwargs : Params) : Except PyErr Engine :=
  match buildRegistry variants with
  | .error e => .error e
  | .ok reg =>
      .ok { byte_order := (dictGet kwargs "byte_order").getD (.str "<")
            header_params := kwargs.filter (fun kv => kv.1 ≠ "byte_order")
            pkt_types := reg }

/-- Registry lookup by decoded discriminator, `self._pkt_types[ptype]`. -/
def Engine.lookupVariant (eng : Engine) (t : Int) : Option Variant :=
  dictGetV eng.pkt_types (.int t)

/-- A transport as used by the engine: the three methods `PacketTransfer`
declares abstract (`read`, `write`, `flush`), over a state type `σ`.
`read` takes `nbytes` (`None` meaning delimiter-terminated). -/
structure Transport (σ : Type) where
  read : σ → Option Nat → (Except PyErr (List Nat)) × σ
  write : σ → List Nat → (Except PyErr Unit) × σ
  flush : σ → Bool → σ

/-- The parameter dictionary `pkt_read` passes to the base packet's
header parser, transfer.py line 84:
`{ **kwargs, **self._pkt_header_params }`. -/
def pkt_read_params (eng : Engine) (kwargs : Params) : Params :=
  dictMerge kwargs eng.header_params

/-- The parameter dictionary `pkt_write` passes to the packet's
`build_header` hook, transfer.py line 125:
`{ **kwargs, **self._pkt_header_params }`. -/
def pkt_write_params (eng : Engine) (kwargs : Params) : Params :=
  dictMerge kwargs eng.header_params

/-- `PacketTransfer.pkt_read` (transfer.py lines 72–105).

Line-by-line: read `self._pkt_base_size` bytes; if fewer were returned,
`flush(True)` and raise `PacketSizeError` — whose message
`'...'.format(psize, self._pkt_base_size, bytes_)` evaluates the local
`psize` before its (line 86) assignment, so the statement actually
raises `UnboundLocalError`.  Otherwise unpack the header into the base
packet, parse it with the merged parameters, pop `size` and `type`; an
unregistered `type` raises `PacketTypeError` (no flush); otherwise
construct the resolved variant, compare its computed size against the
decoded size (mismatch: `flush(True)` and `PacketSizeError`), read the
remaining `size − header` bytes if any, and unpack the full buffer into
the variant instance. -/
def pkt_read {σ : Type} (T : Transport σ) (eng : Engine) (kwargs : Params) (s : σ) :
    (Except PyErr PktInstance) × σ :=
  match T.read s (some baseSize) with
  | (.error e, s) => (.error e, s)
  | (.ok bytes_, s) =>
    if bytes_.length < baseSize then
      (.error (.unboundLocal "psize"), T.flush s true)
    else
      let base := PktInstance.unpack basePkt (bytes_.take baseSize)
      let hdr := PktInstance.parse_header base (pkt_read_params eng kwargs)
      let psize : Int := hdr.1
      let ptype : Int := hdr.2
      match Engine.lookupVariant eng ptype with
      | Option.none => (.error (.packetTypeError (.int ptype) bytes_), s)
      | Option.some v =>
        let pkt := Variant.new v
        if psize ≠ Int.ofNat (PktInstance.get_size pkt) then
          (.error
            (.packetSizeError [.int psize, .int (Int.ofNat (PktInstance.get_size pkt)), .bytes bytes_]),
            T.flush s true)
        else
          let rm_len : Int := psize - Int.ofNat baseSize
          if 0 < rm_len then
            match T.read s (some rm_len.toNat) with
            | (.error e, s) => (.error e, s)
            | (.ok more, s) => (.ok (PktInstance.unpack pkt (bytes_ ++ more)), s)
          else
            (.ok (PktInstance.unpack pkt bytes_), s)

/-- `PacketTransfer.pkt_write` (transfer.py lines 122–126): call the
packet's `build_header` with the merged parameters, then write
`bytes(packet)` to the transport. -/
def pkt_write {σ : Type} (T : Transport σ) (eng : Engine) (p : PktInstance) (kwargs : Params)
    (s : σ) : (Except PyErr Unit) × σ :=
  let p' := PktInstance.build_header p (pkt_write_params eng kwargs)
  T.write s (serialize p')

/-- `PacketTransfer.pkt_sendrecv` (transfer.py lines 128–131):
`flush(False)`, `pkt_write`, `pkt_read`. -/
def pkt_sendrecv {σ : Type} (T : Transport σ) (eng : Engine) (p : PktInstance) (kwargs : Params)
    (s : σ) : (Except PyErr PktInstance) × σ :=
  let s := T.flush s false
  match pkt_write T eng p kwargs s with
  | (.error e, s) => (.error e, s)
  | (.ok _, s) => pkt_read T eng kwargs s

/-- First index at which `pat` occurs as a contiguous subsequence of the
list — Python's `bytes.index`, as `Option` (Python raises `ValueError`
when absent). -/
def subIndex (pat : List Nat) : List Nat → Option Nat
  | [] => if pat = [] then some 0 else Option.none
  | b :: rest =>
    if (b :: rest).take pat.length = pat then some 0
    else (subIndex pat rest).map (fun i => i + 1)

/-- State of a `LoopBack` transport (transfer.py lines 134–168). -/
structure LoopBack where
  timeout : Int
  addr : Int
  eol : List Nat
  rx_buffer : List Nat
  tx_buffer : List Nat
deriving DecidableEq, Repr

/-- `LoopBack.flush` (lines 148–151): assigns `rx_buffer = b''`, and when
`reset_tx` is set assigns `rx_buffer = b''` a second time — the transmit
buffer is never cleared. -/
def LoopBack.flush (s : LoopBack) (reset_tx : Bool) : LoopBack :=
  let s := { s with rx_buffer := [] }
  if reset_tx then { s with rx_buffer := [] } else s

/-- `LoopBack.write` (lines 153–155): record the bytes as the transmit
buffer and append them to the receive buffer (echo). -/
def LoopBack.write (s : LoopBack) (bytes_ : List Nat) : LoopBack :=
  { s with tx_buffer := bytes_, rx_buffer := s.rx_buffer ++ bytes_ }

/-- `LoopBack.read` (lines 157–168): with `nbytes = None`, resolve
`nbytes` to `rx_buffer.index(eol)` (a missing delimiter raises
`ValueError`).  If enough bytes are buffered, return and consume them;
otherwise raise `RuntimeError` — the message has two format slots,
filled by the first two of the three arguments `(timeout, nbytes,
rx_buffer)`, so the buffered partial bytes are dropped from the message
— and leave the buffer untouched. -/
def LoopBack.read (s : LoopBack) (nbytes : Option Nat) : (Except PyErr (List Nat)) × LoopBack :=
  let n? : Except PyErr Nat :=
    match nbytes with
    | Option.some n => .ok n
    | Option.none =>
      match subIndex s.eol s.rx_buffer with
      | Option.some i => .ok i
      | Option.none => .error .valueError
  match n? with
  | .error e => (.error e, s)
  | .ok n =>
    if n ≤ s.rx_buffer.length then
      (.ok (s.rx_buffer.take n), { s with rx_buffer := s.rx_buffer.drop n })
    else
      (.error (.loopbackTimeout [.int s.timeout, .int (Int.ofNat n)]), s)

/-- The `LoopBack` methods packaged as a `Transport`. -/
def loopTransport : Transport LoopBack :=
  { read := LoopBack.read
    write := fun s bs => (.ok (), LoopBack.write s bs)
    flush := LoopBack.flush }

/-- State of a `SerialInterface` (transfer.py lines 170–244).  The
deadline-polled port is modelled by `avail`, the bytes currently at the
port (`self.ser.in_waiting`); a read call during which the deadline
expires is modelled as one in which no further bytes arrive. -/
structure SerialModel where
  timeout : Int
  eol : List Nat
  avail : List Nat
deriving DecidableEq, Repr

/-- `SerialInterface.flush` (lines 192–195): drain `in_waiting` bytes;
the output-buffer reset has no observable effect in this model. -/
def SerialModel.flush (s : SerialModel) (_reset_tx : Bool) : SerialModel :=
  { s with avail := [] }

/-- `SerialInterface.read` (lines 200–216).  With `nbytes` given: if the
port already holds `nbytes` they are returned and consumed, otherwise
the deadline expires, the bytes at the port are drained into `atport`,
the port is flushed, and `RuntimeError` is raised with format slots
`(timeout, nbytes, atport)` — the partial bytes are in the message.
With `nbytes = None`: `read_until(eol)` returns up to and including the
delimiter when present, else the deadline path is taken. -/
def SerialModel.read (s : SerialModel) (nbytes : Option Nat) :
    (Except PyErr (List Nat)) × SerialModel :=
  match nbytes with
  | Option.some n =>
    if n ≤ s.avail.length then
      (.ok (s.avail.take n), { s with avail := s.avail.drop n })
    else
      (.error (.serialTimeout [.int s.timeout, .int (Int.ofNat n), .bytes s.avail]),
        { s with avail := [] })
  | Option.none =>
    match subIndex s.eol s.avail with
    | Option.some i =>
      (.ok (s.avail.take (i + s.eol.length)), { s with avail := s.avail.drop (i + s.eol.length) })
    | Option.none =>
      (.error (.serialTimeout [.int s.timeout, PyVal.none, .bytes s.avail]),
        { s with avail := [] })

/-- State of a `SocketInterface` (transfer.py lines 246–394).
`incoming` lists the chunks that successive `socket.recv(4096)` calls
will deliver during a read; an exhausted list models `recv` hitting the
socket timeout.  `sockClosed` records that the OS-level sockets have
been shut down by `close()`. -/
structure SocketInterface where
  udp : Bool
  target : Option (String × Int)
  host : Option (String × Int)
  timeout : Int
  eol : List Nat
  rxBuffer : List Nat
  connected : Bool
  sockClosed : Bool
  incoming : List (List Nat)
deriving DecidableEq, Repr

/-- `SocketInterface.__init__` (lines 249–300): `_udp` is set iff both
`target` and `host` are supplied; with neither, `ValueError` is raised;
`_connected` starts `False` in every configuration. -/
def SocketInterface.init (target host : Option (String × Int)) (timeout : Int)
    (eol : List Nat) (incoming : List (List Nat)) : Except PyErr SocketInterface :=
  if target.isSome ∧ host.isSome then
    .ok { udp := true, target := target, host := host, timeout := timeout, eol := eol
          rxBuffer := [], connected := false, sockClosed := false, incoming := incoming }
  else if host.isSome then
    .ok { udp := false, target := target, host := host, timeout := timeout, eol := eol
          rxBuffer := [], connected := false, sockClosed := false, incoming := incoming }
  else if target.isSome then
    .ok { udp := false, target := target, host := host, timeout := timeout, eol := eol
          rxBuffer := [], connected := false, sockClosed := false, incoming := incoming }
  else
    .error .valueError

/-- `SocketInterface.is_connected` (lines 351–352). -/
def SocketInterface.is_connected (s : SocketInterface) : Bool :=
  s.connected

/-- `SocketInterface.connect` (lines 354–370): a no-op when already
connected; otherwise the accept/connect succeeds (modelled as such) and
`_connected = bool(not self._udp)` — `False` for the UDP configuration. -/
def SocketInterface.connect (s : SocketInterface) : SocketInterface :=
  if s.connected then s
  else { s with connected := !s.udp }

/-- `SocketInterface.close` (lines 379–391): returns immediately when
not connected; otherwise shuts down and closes the OS sockets
(best-effort) — `_connected` is never assigned. -/
def SocketInterface.close (s : SocketInterface) : SocketInterface :=
  if !s.connected then s
  else { s with sockClosed := true }

/-- `SocketInterface.flush` (lines 302–303): clears the receive buffer. -/
def SocketInterface.flush (s : SocketInterface) (_resetTX : Bool) : SocketInterface :=
  { s with rxBuffer := [] }

/-- `SocketInterface.write` (lines 305–312): raises when not connected,
otherwise hands the bytes to the OS socket (no model state change). -/
def SocketInterface.write (s : SocketInterface) (_data_bytes : List Nat) :
    (Except PyErr Unit) × SocketInterface :=
  if !s.connected then (.error .notConnected, s)
  else (.ok (), s)

/-- `SocketInterface._is_read_complete` (lines 325–329). -/
def SocketInterface.is_read_complete (s : SocketInterface) (size : Option Nat) : Bool :=
  match size with
  | Option.none => (subIndex s.eol s.rxBuffer).isSome
  | Option.some n => n ≤ s.rxBuffer.length

/-- `SocketInterface._read_from_buffer` (lines 314–323): with
`size = None`, return the bytes before the delimiter and drop
`index + 1` bytes from the buffer (the delimiter byte is consumed);
with `size` given, return and consume `size` bytes. -/
def SocketInterface.read_from_buffer (s : SocketInterface) (size : Option Nat) :
    List Nat × SocketInterface :=
  match size with
  | Option.none =>
    let idx := (subIndex s.eol s.rxBuffer).getD 0
    (s.rxBuffer.take idx, { s with rxBuffer := s.rxBuffer.drop (idx + 1) })
  | Option.some n =>
    (s.rxBuffer.take n, { s with rxBuffer := s.rxBuffer.drop n })

/-- The `while` loop of `SocketInterface.read` (lines 336–349): check
completion, otherwise `recv` the next chunk into the buffer; when `recv`
times out (no chunk left), `self.close()` and raise `TimeoutError`
carrying the receive buffer. -/
def SocketInterface.readLoop (s : SocketInterface) (nbytes : Option Nat) :
    List (List Nat) → (Except PyErr (List Nat)) × SocketInterface
  | [] =>
    if SocketInterface.is_read_complete s nbytes then
      let (rd, s') := SocketInterface.read_from_buffer s nbytes
      (.ok rd, s')
    else
      (.error (.socketTimeout s.rxBuffer), SocketInterface.close s)
  | c :: rest =>
    if SocketInterface.is_read_complete s nbytes then
      let (rd, s') := SocketInterface.read_from_buffer s nbytes
      (.ok rd, s')
    else
      SocketInterface.readLoop { s with rxBuffer := s.rxBuffer ++ c } nbytes rest

/-- `SocketInterface.read` (lines 331–349): raises when not connected,
otherwise runs the receive loop over the pending chunks. -/
def SocketInterface.read (s : SocketInterface) (nbytes : Option Nat) :
    (Except PyErr (List Nat)) × SocketInterface :=
  if !s.connected then (.error .notConnected, s)
  else SocketInterface.readLoop { s with incoming := [] } nbytes s.incoming

/-! ### Concrete fixtures

The two-variant configuration of spec §8: packet `PktA` (discriminator
1, body length 4) and `PktB` (discriminator 2, body length 2). -/

/-- An engine holding the spec §8 two-variant registry. -/
def engA : Engine :=
  { byte_order := .str "<"
    header_params := [("addr", .int 1)]
    pkt_types := [(.int 1, ⟨"PktA", 1, 4⟩), (.int 2, ⟨"PktB", 2, 2⟩)] }

/-- A fresh loopback transport with default newline delimiter. -/
def lbEmpty : LoopBack :=
  { timeout := 1, addr := 1, eol := [10], rx_buffer := [], tx_buffer := [] }

/-- A stub transport whose state is the receive buffer itself and whose
`read` hands over at most the requested bytes — the shape of transport
state the short-read claim quantifies over. -/
def listT : Transport (List Nat) :=
  { read := fun s n => (.ok (s.take (n.getD 0)), s.drop (n.getD 0))
    write := fun s _ => (.ok (), s)
    flush := fun _ _ => [] }

/-- A UDP-configured socket (both `target` and `host` supplied), as
produced by `SocketInterface.init`. -/
def udpSock : SocketInterface :=
  { udp := true, target := some ("127.0.0.1", 50000), host := some ("127.0.0.1", 50001)
    timeout := 2, eol := [10], rxBuffer := [], connected := false, sockClosed := false
    incoming := [] }

/-- A TCP-client-configured socket, as produced by
`SocketInterface.init`. -/
def tcpClient : SocketInterface :=
  { udp := false, target := some ("127.0.0.1", 50000), host := Option.none
    timeout := 2, eol := [10], rxBuffer := [], connected := false, sockClosed := false
    incoming := [] }

/-! ### Helper lemmas -/

theorem baseSize_eq : baseSize = 2 := rfl

theorem map_mod_eq_self (l : List Nat) (h : ∀ b ∈ l, b < 256) :
    l.map (fun b => b % 256) = l := by
  induction l with
  | nil => rfl
  | cons x xs ih =>
    simp only [List.map_cons, List.cons.injEq]
    constructor
    · exact Nat.mod_eq_of_lt (h x (by simp))
    · exact ih (fun b hb => h b (by simp [hb]))

theorem getD_take_of_lt (l : List Nat) (n i d : Nat) (h : i < n) :
    (l.take n).getD i d = l.getD i d := by
  simp [List.getD_eq_getElem?_getD, List.getElem?_take, h]

theorem getD_append_of_lt (l l' : List Nat) (i d : Nat) (h : i < l.length) :
    (l ++ l').getD i d = l.getD i d := by
  simp [List.getD_eq_getElem?_getD, List.getElem?_append, h]

theorem subIndex_single (e : Nat) (pre post : List Nat) (he : e ∉ pre) :
    subIndex [e] (pre ++ e :: post) = some pre.length := by
  induction pre with
  | nil => simp [subIndex]
  | cons b rest ih =>
    have hbe : b ≠ e := by
      intro h; exact he (by simp [h])
    have hrest : e ∉ rest := fun h => he (by simp [h])
    simp only [List.cons_append, subIndex, List.length_cons, List.take_succ_cons,
      List.take_zero]
    rw [if_neg (by simp [hbe])]
    simp only [List.append_eq]
    rw [ih hrest]
    rfl

/-! ### Claim theorems -/

/-- Claim C2: the claim says a short header read makes `pkt_read` raise
`PacketSizeError` with the receive buffer flushed.  The code does flush
(`self.flush(True)`, line 78), but the `raise PacketSizeError` at
line 79 formats its message with the local `psize`, which is first
assigned only at line 86, so the statement actually raises
`UnboundLocalError`, not `PacketSizeError`. -/
theorem c2_short_read_raises_unbound_local {σ : Type} (T : Transport σ) (eng : Engine)
    (kwargs : Params) (s s1 : σ) (bs : List Nat)
    (hread : T.read s (some baseSize) = (.ok bs, s1))
    (hlen : bs.length < baseSize) :
    pkt_read T eng kwargs s = (.error (.unboundLocal "psize"), T.flush s1 true) := by
  unfold pkt_read
  rw [hread]
  simp only [if_pos hlen]

theorem c2_short_read_raises_unbound_local_witness :
    pkt_read listT engA [] [7] = (.error (.unboundLocal "psize"), ([] : List Nat)) :=
  c2_short_read_raises_unbound_local listT engA [] [7] [] [7] rfl (by decide)

/-- Claim C3, counterexample: with the spec §8 registry, a buffered
frame whose discriminator is 9 makes `pkt_read` raise the type error,
but the transport is NOT flushed first — the two unread body bytes are
still in the receive buffer when the error is raised. -/
theorem c3_type_error_counterexample :
    pkt_read loopTransport engA []
        { timeout := 1, addr := 1, eol := [10], rx_buffer := [4, 9, 5, 6], tx_buffer := [] } =
      (.error (.packetTypeError (.int 9) [4, 9]),
        { timeout := 1, addr := 1, eol := [10], rx_buffer := [5, 6], tx_buffer := [] }) ∧
    ([5, 6] : List Nat) ≠ [] := by
  constructor
  · rfl
  · decide

/-- Claim C3 (amended): when the decoded discriminator has no registered
variant, `pkt_read` raises a type error naming the discriminator and the
raw bytes received, but does NOT flush the transport: the state is
exactly the one left by the header read. -/
theorem c3_type_error_names_discriminator {σ : Type} (T : Transport σ) (eng : Engine)
    (kwargs : Params) (s s1 : σ) (bs : List Nat)
    (hread : T.read s (some baseSize) = (.ok bs, s1))
    (hlen : ¬ bs.length < baseSize)
    (hmiss : Engine.lookupVariant eng (Int.ofNat (bs.getD 1 0)) = Option.none) :
    pkt_read T eng kwargs s =
      (.error (.packetTypeError (.int (Int.ofNat (bs.getD 1 0))) bs), s1) := by
  unfold pkt_read
  rw [hread]
  simp only [if_neg hlen]
  simp only [PktInstance.parse_header, PktInstance.unpack]
  rw [baseSize_eq, getD_take_of_lt bs 2 1 0 (by omega)]
  rw [hmiss]

theorem c3_type_error_names_discriminator_witness :
    pkt_read loopTransport engA []
        { timeout := 1, addr := 1, eol := [10], rx_buffer := [4, 9, 5, 6], tx_buffer := [] } =
      (.error (.packetTypeError (.int 9) [4, 9]),
        { timeout := 1, addr := 1, eol := [10], rx_buffer := [5, 6], tx_buffer := [] }) :=
  c3_type_error_names_discriminator loopTransport engA []
    { timeout := 1, addr := 1, eol := [10], rx_buffer := [4, 9, 5, 6], tx_buffer := [] }
    { timeout := 1, addr := 1, eol := [10], rx_buffer := [5, 6], tx_buffer := [] }
    [4, 9] rfl (by decide) rfl

/-- Claim C5, counterexample: a loopback read of 5 bytes with only
`[1, 2, 3]` buffered raises the timeout error, but the message's two
format slots hold the timeout and the requested byte count — the
accumulated partial bytes are dropped (the third format argument has no
slot) — and the receive buffer is left untouched, not flushed. -/
theorem c5_timeout_counterexample :
    LoopBack.read
        { timeout := 1, addr := 1, eol := [10], rx_buffer := [1, 2, 3], tx_buffer := [] }
        (some 5) =
      (.error (.loopbackTimeout [.int 1, .int 5]),
        { timeout := 1, addr := 1, eol := [10], rx_buffer := [1, 2, 3], tx_buffer := [] }) ∧
    PyVal.bytes [1, 2, 3] ∉ [PyVal.int 1, PyVal.int 5] ∧
    ([1, 2, 3] : List Nat) ≠ [] := by
  refine ⟨rfl, by decide, by decide⟩

/-- Claim C5 (amended): on a read of `n` bytes that cannot be satisfied,
the serial transport raises its timeout error carrying the partial bytes
at the port and drains the port, and the socket transport raises a
timeout error carrying the partial receive buffer and closes its OS
socket; the loopback transport instead raises a timeout error whose
message holds only the timeout and the requested count (not the partial
bytes) and leaves its receive buffer unchanged. -/
theorem c5_timeout_per_transport :
    (∀ (lb : LoopBack) (n : Nat), lb.rx_buffer.length < n →
      LoopBack.read lb (some n) =
        (.error (.loopbackTimeout [.int lb.timeout, .int (Int.ofNat n)]), lb)) ∧
    (∀ (sm : SerialModel) (n : Nat), sm.avail.length < n →
      SerialModel.read sm (some n) =
        (.error (.serialTimeout [.int sm.timeout, .int (Int.ofNat n), .bytes sm.avail]),
          { sm with avail := [] })) ∧
    (∀ (sk : SocketInterface) (n : Nat), sk.connected = true → sk.incoming = [] →
      sk.rxBuffer.length < n →
      SocketInterface.read sk (some n) =
        (.error (.socketTimeout sk.rxBuffer), { sk with incoming := [], sockClosed := true })) := by
  refine ⟨?_, ?_, ?_⟩
  · intro lb n h
    unfold LoopBack.read
    simp only []
    rw [if_neg (by omega)]
  · intro sm n h
    unfold SerialModel.read
    simp only []
    rw [if_neg (by omega)]
  · intro sk n hc hi h
    unfold SocketInterface.read
    rw [hc]
    simp only [Bool.not_true, Bool.false_eq_true, if_false, hi]
    unfold SocketInterface.readLoop
    rw [if_neg (by simp [SocketInterface.is_read_complete]; omega)]
    unfold SocketInterface.close
    rw [if_neg (by simp [hc])]

theorem c5_timeout_per_transport_witness :
    (LoopBack.read
        { timeout := 1, addr := 1, eol := [10], rx_buffer := [1, 2, 3], tx_buffer := [] }
        (some 5) =
      (.error (.loopbackTimeout [.int 1, .int 5]),
        { timeout := 1, addr := 1, eol := [10], rx_buffer := [1, 2, 3], tx_buffer := [] })) ∧
    (SerialModel.read { timeout := 1, eol := [10], avail := [1, 2, 3] } (some 5) =
      (.error (.serialTimeout [.int 1, .int 5, .bytes [1, 2, 3]]),
        { timeout := 1, eol := [10], avail := [] })) ∧
    (SocketInterface.read { tcpClient with connected := true, rxBuffer := [1, 2] } (some 5) =
      (.error (.socketTimeout [1, 2]),
        { tcpClient with connected := true, rxBuffer := [1, 2], sockClosed := true })) :=
  ⟨c5_timeout_per_transport.1 _ 5 (by decide),
   c5_timeout_per_transport.2.1 _ 5 (by decide),
   c5_timeout_per_transport.2.2 _ 5 rfl rfl (by decide)⟩

/-- Claim C6: the claim says two variants sharing a class name make
registry construction raise a configuration error.  The code's check
(line 62) is `pkt.__name__ in self._pkt_types` — membership of the class
name among the keys of the discriminator→class dictionary, which hold
discriminator values, never names — so it can never fire: construction
of a registry from two variants both named `PktA` (discriminators 1 and
2) completes without any error and registers both. -/
theorem c6_duplicate_name_not_rejected :
    buildRegistry [⟨"PktA", 1, 4⟩, ⟨"PktA", 2, 2⟩] =
      .ok [(.int 1, ⟨"PktA", 1, 4⟩), (.int 2, ⟨"PktA", 2, 2⟩)] := by
  rfl

/-- Claim C8: the claim says a UDP-configured socket (both `target` and
`host`) is always connected once constructed.  In the code,
`__init__` sets `_connected = False` and `connect()` sets
`_connected = bool(not self._udp)`, which is `False` for UDP — so a UDP
socket never reports connected, and `read`/`write` always raise the
not-connected `RuntimeError`. -/
theorem c8_udp_never_connected :
    SocketInterface.init (some ("127.0.0.1", 50000)) (some ("127.0.0.1", 50001)) 2 [10] [] =
      .ok udpSock ∧
    SocketInterface.is_connected udpSock = false ∧
    SocketInterface.is_connected (SocketInterface.connect udpSock) = false ∧
    (SocketInterface.write (SocketInterface.connect udpSock) [1, 2]).1 = .error .notConnected ∧
    (SocketInterface.read (SocketInterface.connect udpSock) (some 1)).1 = .error .notConnected := by
  refine ⟨rfl, rfl, rfl, rfl, rfl⟩

/-- Claim C9: the claim says every transport reports not-connected after
`close()` returns.  `SocketInterface.close` (lines 379–391) shuts the OS
sockets down but never assigns `_connected = False`: a TCP client that
connected and then closed still reports `is_connected() == True`. -/
theorem c9_close_leaves_connected :
    SocketInterface.is_connected (SocketInterface.connect tcpClient) = true ∧
    (SocketInterface.close (SocketInterface.connect tcpClient)).sockClosed = true ∧
    SocketInterface.is_connected (SocketInterface.close (SocketInterface.connect tcpClient)) =
      true := by
  refine ⟨rfl, rfl, rfl⟩

/-! ### Dictionary-merge lemmas for the parameter-precedence claim -/

theorem dictGet_cons (kv : String × PyVal) (d : Params) (k : String) :
    dictGet (kv :: d) k = if kv.1 = k then some kv.2 else dictGet d k := by
  by_cases h : kv.1 = k <;> simp [dictGet, List.find?, h]

theorem dictGet_map_overwrite_ne (d : Params) (k k' : String) (v : PyVal) (h : k' ≠ k) :
    dictGet (d.map (fun kv => if kv.1 = k then (k, v) else kv)) k' = dictGet d k' := by
  induction d with
  | nil => rfl
  | cons kv rest ih =>
    rw [List.map_cons, dictGet_cons, dictGet_cons]
    by_cases hk : kv.1 = k
    · rw [if_pos hk]
      have h1 : ¬ ((k, v) : String × PyVal).1 = k' := fun hc => h (hc.symm)
      have h2 : ¬ kv.1 = k' := by rw [hk]; exact h1
      rw [if_neg h1, if_neg h2]
      exact ih
    · rw [if_neg hk]
      by_cases hk' : kv.1 = k'
      · rw [if_pos hk', if_pos hk']
      · rw [if_neg hk', if_neg hk']
        exact ih

theorem dictGet_dictSet_self (d : Params) (k : String) (v : PyVal) :
    dictGet (dictSet d k v) k = some v := by
  unfold dictSet
  by_cases hmem : k ∈ d.map Prod.fst
  · rw [if_pos hmem]
    induction d with
    | nil => simp at hmem
    | cons kv rest ih =>
      rw [List.map_cons, dictGet_cons]
      by_cases hk : kv.1 = k
      · rw [if_pos hk]
        simp
      · rw [if_neg hk]
        rw [if_neg hk]
        have hmem' : k ∈ rest.map Prod.fst := by
          rcases List.mem_map.mp hmem with ⟨x, hx, hxk⟩
          rcases List.mem_cons.mp hx with h' | h'
          · exact absurd (h' ▸ hxk) hk
          · exact List.mem_map.mpr ⟨x, h', hxk⟩
        exact ih hmem'
  · rw [if_neg hmem]
    induction d with
    | nil =>
      rw [List.nil_append, dictGet_cons]
      simp
    | cons kv rest ih =>
      have hk : ¬ kv.1 = k := fun h' => hmem (by simp [← h'])
      have hmem' : k ∉ rest.map Prod.fst := fun h' => hmem (by simp [h'])
      rw [List.cons_append, dictGet_cons, if_neg hk]
      exact ih hmem'

theorem dictGet_dictSet_ne (d : Params) (k k' : String) (v : PyVal) (h : k' ≠ k) :
    dictGet (dictSet d k v) k' = dictGet d k' := by
  unfold dictSet
  by_cases hmem : k ∈ d.map Prod.fst
  · rw [if_pos hmem]
    exact dictGet_map_overwrite_ne d k k' v h
  · rw [if_neg hmem]
    induction d with
    | nil =>
      rw [List.nil_append, dictGet_cons]
      rw [if_neg (fun hc => h hc.symm)]
    | cons kv rest ih =>
      rw [List.cons_append, dictGet_cons, dictGet_cons]
      by_cases hk' : kv.1 = k'
      · rw [if_pos hk', if_pos hk']
      · rw [if_neg hk', if_neg hk']
        exact ih (fun h' => hmem (by simp [h']))

theorem dictGet_dictMerge_not_mem (b : Params) (k : String)
    (h : ¬ dictHasKey b k) : ∀ a : Params, dictGet (dictMerge a b) k = dictGet a k := by
  induction b with
  | nil => intro a; rfl
  | cons kv rest ih =>
    intro a
    have hk : k ≠ kv.1 := fun hc => h (by simp [dictHasKey, hc])
    have hrest : ¬ dictHasKey rest k := fun hc => by
      rcases List.mem_map.mp hc with ⟨x, hx, hxk⟩
      exact h (List.mem_map.mpr ⟨x, by simp [hx], hxk⟩)
    calc dictGet (dictMerge a (kv :: rest)) k
        = dictGet (dictMerge (dictSet a kv.1 kv.2) rest) k := rfl
      _ = dictGet (dictSet a kv.1 kv.2) k := ih hrest _
      _ = dictGet a k := dictGet_dictSet_ne a kv.1 k kv.2 hk

theorem dictGet_dictMerge_right (b : Params) (k : String)
    (hnd : (b.map Prod.fst).Nodup) (hk : dictHasKey b k) :
    ∀ a : Params, dictGet (dictMerge a b) k = dictGet b k := by
  induction b with
  | nil => simp [dictHasKey] at hk
  | cons kv rest ih =>
    intro a
    have hnd' : (rest.map Prod.fst).Nodup := (List.nodup_cons.mp hnd).2
    by_cases hke : k = kv.1
    · have hnotin : kv.1 ∉ rest.map Prod.fst := (List.nodup_cons.mp hnd).1
      have hnot : ¬ dictHasKey rest k := by rw [hke]; exact hnotin
      calc dictGet (dictMerge a (kv :: rest)) k
          = dictGet (dictMerge (dictSet a kv.1 kv.2) rest) k := rfl
        _ = dictGet (dictSet a kv.1 kv.2) k := dictGet_dictMerge_not_mem rest k hnot _
        _ = some kv.2 := by rw [hke]; exact dictGet_dictSet_self a kv.1 kv.2
        _ = dictGet (kv :: rest) k := by rw [dictGet_cons, if_pos hke.symm]
    · have hkrest : dictHasKey rest k := by
        rcases List.mem_map.mp hk with ⟨x, hx, hxk⟩
        rcases List.mem_cons.mp hx with h' | h'
        · exact absurd (h' ▸ hxk).symm hke
        · exact List.mem_map.mpr ⟨x, h', hxk⟩
      have hne : ¬ kv.1 = k := fun hc => hke hc.symm
      calc dictGet (dictMerge a (kv :: rest)) k
          = dictGet (dictMerge (dictSet a kv.1 kv.2) rest) k := rfl
        _ = dictGet rest k := ih hnd' hkrest _
        _ = dictGet (kv :: rest) k := by rw [dictGet_cons, if_neg hne]

/-- Claim C7: both `pkt_read` (line 84) and `pkt_write` (line 125) pass
`{ **kwargs, **self._pkt_header_params }` to the header parser /
header-population hook (`pkt_read_params` / `pkt_write_params` in this
development, used verbatim by `pkt_read` and `pkt_write`): for a key
present in both dictionaries the construction-time value wins. -/
theorem c7_param_precedence (eng : Engine) (kwargs : Params) (k : String)
    (hnd : (eng.header_params.map Prod.fst).Nodup)
    (h1 : dictHasKey kwargs k) (h2 : dictHasKey eng.header_params k) :
    dictGet (pkt_read_params eng kwargs) k = dictGet eng.header_params k ∧
    dictGet (pkt_write_params eng kwargs) k = dictGet eng.header_params k := by
  refine ⟨?_, ?_⟩ <;>
    exact dictGet_dictMerge_right eng.header_params k hnd h2 kwargs

theorem c7_param_precedence_witness :
    dictGet (pkt_read_params engA [("addr", .int 5), ("dst", .int 9)]) "addr" =
        dictGet engA.header_params "addr" ∧
    dictGet (pkt_write_params engA [("addr", .int 5), ("dst", .int 9)]) "addr" =
        dictGet engA.header_params "addr" :=
  c7_param_precedence engA [("addr", .int 5), ("dst", .int 9)] "addr"
    (by decide) (by decide) (by decide)

/-- Claim C10: a delimiter-terminated read whose buffer holds the
delimiter returns the bytes strictly before the delimiter on both
buffering transports; the socket's `_read_from_buffer` additionally
drops the delimiter byte from its buffer (`rxBuffer[idx+1:]`), while the
loopback's `read` leaves the delimiter at the head of its buffer
(`rx_buffer[idx:]`). -/
theorem c10_delimiter_read (lb : LoopBack) (sk : SocketInterface) (e : Nat)
    (pre post : List Nat) (he : e ∉ pre)
    (hlbeol : lb.eol = [e]) (hlbrx : lb.rx_buffer = pre ++ e :: post)
    (hskeol : sk.eol = [e]) (hskrx : sk.rxBuffer = pre ++ e :: post) :
    LoopBack.read lb Option.none = (.ok pre, { lb with rx_buffer := e :: post }) ∧
    SocketInterface.read_from_buffer sk Option.none = (pre, { sk with rxBuffer := post }) := by
  have htake : (pre ++ e :: post).take pre.length = pre := List.take_left pre (e :: post)
  have hdrop : (pre ++ e :: post).drop pre.length = e :: post := List.drop_left pre (e :: post)
  have hdrop1 : (pre ++ e :: post).drop (pre.length + 1) = post := by
    have h1 : pre ++ e :: post = (pre ++ [e]) ++ post := by simp
    have h2 : pre.length + 1 = (pre ++ [e]).length := by simp
    rw [h1, h2]
    exact List.drop_left (pre ++ [e]) post
  constructor
  · unfold LoopBack.read
    rw [hlbeol, hlbrx, subIndex_single e pre post he]
    have hle : pre.length ≤ (pre ++ e :: post).length := by simp
    simp only [if_pos hle, htake, hdrop]
  · unfold SocketInterface.read_from_buffer
    rw [hskeol, hskrx, subIndex_single e pre post he]
    simp only [Option.getD_some, htake, hdrop1]

theorem c10_delimiter_read_witness :
    LoopBack.read { lbEmpty with rx_buffer := [7, 8, 10, 9] } Option.none =
      (.ok [7, 8], { lbEmpty with rx_buffer := [10, 9] }) ∧
    SocketInterface.read_from_buffer { tcpClient with rxBuffer := [7, 8, 10, 9] } Option.none =
      ([7, 8], { tcpClient with rxBuffer := [9] }) :=
  c10_delimiter_read { lbEmpty with rx_buffer := [7, 8, 10, 9] }
    { tcpClient with rxBuffer := [7, 8, 10, 9] } 10 [7, 8] [9]
    (by decide) rfl rfl rfl rfl

/-! ### The successful read path of `pkt_read` -/

/-- Successful `pkt_read` with a non-empty body: the header read yields
`bs`, the decoded discriminator resolves to `v`, the decoded size
matches `v`'s computed size, and the body read yields `more`; the
result is the variant instance unpacked from the full buffer. -/
theorem pkt_read_ok_body {σ : Type} (T : Transport σ) (eng : Engine) (kwargs : Params)
    (s s1 s2 : σ) (bs more : List Nat) (v : Variant)
    (hread : T.read s (some baseSize) = (.ok bs, s1))
    (hlen : ¬ bs.length < baseSize)
    (hv : Engine.lookupVariant eng (Int.ofNat (bs.getD 1 0)) = some v)
    (hsz : bs.getD 0 0 = 2 + v.bodyLen)
    (hpos : 0 < v.bodyLen)
    (hread2 : T.read s1 (some v.bodyLen) = (.ok more, s2)) :
    pkt_read T eng kwargs s = (.ok (PktInstance.unpack (Variant.new v) (bs ++ more)), s2) := by
  unfold pkt_read
  rw [hread]
  simp only [if_neg hlen]
  simp only [PktInstance.parse_header, PktInstance.unpack]
  rw [baseSize_eq, getD_take_of_lt bs 2 1 0 (by omega), getD_take_of_lt bs 2 0 0 (by omega)]
  rw [hv]
  simp only []
  have hgs : PktInstance.get_size (Variant.new v) = 2 + v.bodyLen := by
    simp [PktInstance.get_size, Variant.new]
  rw [hsz, hgs]
  rw [if_neg (fun h => h rfl)]
  rw [if_pos (show (0 : Int) < Int.ofNat (2 + v.bodyLen) - Int.ofNat 2 by
    simp only [Int.ofNat_eq_natCast]; omega)]
  have htn : (Int.ofNat (2 + v.bodyLen) - Int.ofNat 2).toNat = v.bodyLen := by
    simp only [Int.ofNat_eq_natCast]; omega
  rw [htn, hread2]

/-- Successful `pkt_read` of a header-only variant: no body read occurs
and the result is the variant instance unpacked from the header bytes. -/
theorem pkt_read_ok_nobody {σ : Type} (T : Transport σ) (eng : Engine) (kwargs : Params)
    (s s1 : σ) (bs : List Nat) (v : Variant)
    (hread : T.read s (some baseSize) = (.ok bs, s1))
    (hlen : ¬ bs.length < baseSize)
    (hv : Engine.lookupVariant eng (Int.ofNat (bs.getD 1 0)) = some v)
    (hsz : bs.getD 0 0 = 2 + v.bodyLen)
    (hzero : v.bodyLen = 0) :
    pkt_read T eng kwargs s = (.ok (PktInstance.unpack (Variant.new v) bs), s1) := by
  unfold pkt_read
  rw [hread]
  simp only [if_neg hlen]
  simp only [PktInstance.parse_header, PktInstance.unpack]
  rw [baseSize_eq, getD_take_of_lt bs 2 1 0 (by omega), getD_take_of_lt bs 2 0 0 (by omega)]
  rw [hv]
  simp only []
  have hgs : PktInstance.get_size (Variant.new v) = 2 + v.bodyLen := by
    simp [PktInstance.get_size, Variant.new]
  rw [hsz, hgs]
  rw [if_neg (fun h => h rfl)]
  rw [if_neg (show ¬ (0 : Int) < Int.ofNat (2 + v.bodyLen) - Int.ofNat 2 by
    simp only [Int.ofNat_eq_natCast]; omega)]

/-- Unpacking the serialization of a well-formed instance of variant `v`
into a fresh instance of `v` restores the original packet. -/
theorem unpack_serialize (v : Variant) (p : PktInstance)
    (hname : p.vname = v.name)
    (hsize : p.size = Int.ofNat (2 + v.bodyLen))
    (hlt : 2 + v.bodyLen < 256)
    (hpt0 : 0 ≤ p.ptype) (hptlt : p.ptype < 256)
    (hbody : ∀ b ∈ p.body, b < 256) :
    PktInstance.unpack (Variant.new v) (serialize p) = p := by
  obtain ⟨pn, ps, pt, pb⟩ := p
  simp only at hname hsize hpt0 hptlt hbody
  simp only [PktInstance.unpack, Variant.new, serialize, List.getD_cons_zero,
    List.getD_cons_succ, List.drop_succ_cons, List.drop_zero, PktInstance.mk.injEq]
  refine ⟨hname.symm, ?_, ?_, map_mod_eq_self pb hbody⟩
  · rw [hsize]
    simp only [Int.ofNat_eq_natCast]
    omega
  · simp only [Int.ofNat_eq_natCast]
    omega

/-- A `pkt_read` on a loopback whose receive buffer holds exactly the
serialization of a well-formed instance `p` of a registered variant `v`
returns `p` and consumes the whole buffer. -/
theorem pkt_read_loopback_roundtrip (eng : Engine) (v : Variant) (p : PktInstance)
    (s : LoopBack) (kwargs : Params)
    (hreg : Engine.lookupVariant eng p.ptype = some v)
    (hname : p.vname = v.name)
    (hsize : p.size = Int.ofNat (2 + v.bodyLen))
    (hblen : p.body.length = v.bodyLen)
    (hlt : 2 + v.bodyLen < 256)
    (hpt0 : 0 ≤ p.ptype) (hptlt : p.ptype < 256)
    (hbody : ∀ b ∈ p.body, b < 256)
    (hrx : s.rx_buffer = serialize p) :
    pkt_read loopTransport eng kwargs s = (.ok p, { s with rx_buffer := [] }) := by
  have hmap : p.body.map (fun b => b % 256) = p.body := map_mod_eq_self p.body hbody
  have hpt : Int.ofNat ((p.ptype % 256).toNat) = p.ptype := by
    simp only [Int.ofNat_eq_natCast]; omega
  have hsz : ((p.size % 256).toNat) = 2 + v.bodyLen := by
    rw [hsize]; simp only [Int.ofNat_eq_natCast]; omega
  have hv : Engine.lookupVariant eng
      (Int.ofNat (([(p.size % 256).toNat, (p.ptype % 256).toNat] : List Nat).getD 1 0)) =
      some v := by
    simp only [List.getD_cons_zero, List.getD_cons_succ]
    rw [hpt]
    exact hreg
  have hread1 : loopTransport.read s (some baseSize) =
      (.ok [(p.size % 256).toNat, (p.ptype % 256).toNat], { s with rx_buffer := p.body }) := by
    show LoopBack.read s (some baseSize) = _
    unfold LoopBack.read
    simp only [baseSize_eq, hrx]
    rw [if_pos (show 2 ≤ (serialize p).length by simp [serialize])]
    have htake : (serialize p).take 2 = [(p.size % 256).toNat, (p.ptype % 256).toNat] := rfl
    have hdrop : (serialize p).drop 2 = p.body := hmap
    rw [htake, hdrop]
  have hserial : serialize p = (p.size % 256).toNat :: (p.ptype % 256).toNat :: p.body := by
    unfold serialize
    rw [hmap]
  have hup : PktInstance.unpack (Variant.new v)
      ((p.size % 256).toNat :: (p.ptype % 256).toNat :: p.body) = p := by
    rw [← hserial]
    exact unpack_serialize v p hname hsize hlt hpt0 hptlt hbody
  rcases Nat.eq_zero_or_pos v.bodyLen with hbl | hbl
  · have hbody0 : p.body = [] := List.length_eq_zero.mp (by rw [hblen, hbl])
    have hmain := pkt_read_ok_nobody loopTransport eng kwargs s { s with rx_buffer := p.body }
      ([(p.size % 256).toNat, (p.ptype % 256).toNat]) v hread1 (by simp [baseSize_eq])
      hv (by simp only [List.getD_cons_zero]; rw [hsz]) hbl
    rw [hmain]
    have h2 : ([(p.size % 256).toNat, (p.ptype % 256).toNat] : List Nat) =
        (p.size % 256).toNat :: (p.ptype % 256).toNat :: p.body := by rw [hbody0]
    rw [h2, hup, hbody0]
  · have hread2 : loopTransport.read { s with rx_buffer := p.body } (some v.bodyLen) =
        (.ok p.body, { s with rx_buffer := [] }) := by
      show LoopBack.read _ (some v.bodyLen) = _
      unfold LoopBack.read
      simp only []
      rw [if_pos (show v.bodyLen ≤ p.body.length by rw [hblen])]
      rw [show p.body.take v.bodyLen = p.body by rw [← hblen, List.take_length]]
      rw [show p.body.drop v.bodyLen = [] by rw [← hblen, List.drop_length]]
    have hmain := pkt_read_ok_body loopTransport eng kwargs s { s with rx_buffer := p.body }
      { s with rx_buffer := [] } ([(p.size % 256).toNat, (p.ptype % 256).toNat]) p.body v
      hread1 (by simp [baseSize_eq]) hv (by simp only [List.getD_cons_zero]; rw [hsz]) hbl hread2
    rw [hmain]
    rw [show ([(p.size % 256).toNat, (p.ptype % 256).toNat] : List Nat) ++ p.body =
      (p.size % 256).toNat :: (p.ptype % 256).toNat :: p.body from rfl]
    rw [hup]

/-- Claim C1: for a packet `p` that is a well-formed instance of a
variant `v` registered with the engine (its discriminator resolves to
`v`, its size field is `v`'s computed size, its body has `v`'s body
length, and its field values fit the one-byte wire layout of this
model), `pkt_write` followed by `pkt_read` on a fresh loopback — and
likewise a single `pkt_sendrecv` — returns a packet equal to `p` in all
header and body fields. -/
theorem c1_roundtrip (eng : Engine) (v : Variant) (p : PktInstance) (s : LoopBack)
    (kwargs : Params)
    (hreg : Engine.lookupVariant eng p.ptype = some v)
    (hdisc : p.ptype = v.disc)
    (hname : p.vname = v.name)
    (hsize : p.size = Int.ofNat (2 + v.bodyLen))
    (hblen : p.body.length = v.bodyLen)
    (hlt : 2 + v.bodyLen < 256)
    (hpt0 : 0 ≤ p.ptype) (hptlt : p.ptype < 256)
    (hbody : ∀ b ∈ p.body, b < 256)
    (hrx : s.rx_buffer = []) :
    (pkt_read loopTransport eng kwargs (pkt_write loopTransport eng p kwargs s).2).1 = .ok p ∧
    (pkt_sendrecv loopTransport eng p kwargs s).1 = .ok p := by
  constructor
  · have h1 : (pkt_write loopTransport eng p kwargs s).2 = LoopBack.write s (serialize p) := rfl
    rw [h1]
    have h2 := pkt_read_loopback_roundtrip eng v p (LoopBack.write s (serialize p)) kwargs hreg
      hname hsize hblen hlt hpt0 hptlt hbody
      (show s.rx_buffer ++ serialize p = serialize p by rw [hrx]; exact List.nil_append _)
    rw [h2]
  · have h1 : pkt_sendrecv loopTransport eng p kwargs s =
        pkt_read loopTransport eng kwargs
          (LoopBack.write (LoopBack.flush s false) (serialize p)) := rfl
    rw [h1]
    have h2 := pkt_read_loopback_roundtrip eng v p
      (LoopBack.write (LoopBack.flush s false) (serialize p)) kwargs hreg
      hname hsize hblen hlt hpt0 hptlt hbody
      (show (LoopBack.flush s false).rx_buffer ++ serialize p = serialize p from
        List.nil_append _)
    rw [h2]

theorem c1_roundtrip_witness :
    (pkt_read loopTransport engA []
        (pkt_write loopTransport engA ⟨"PktA", 6, 1, [1, 2, 3, 4]⟩ [] lbEmpty).2).1 =
      .ok ⟨"PktA", 6, 1, [1, 2, 3, 4]⟩ ∧
    (pkt_sendrecv loopTransport engA ⟨"PktA", 6, 1, [1, 2, 3, 4]⟩ [] lbEmpty).1 =
      .ok ⟨"PktA", 6, 1, [1, 2, 3, 4]⟩ :=
  c1_roundtrip engA ⟨"PktA", 1, 4⟩ ⟨"PktA", 6, 1, [1, 2, 3, 4]⟩ lbEmpty []
    rfl rfl rfl rfl rfl (by decide) (by decide) (by decide) (by decide) rfl

/-- The size-mismatch error branch of `pkt_read` (lines 95–97): flush
then `PacketSizeError`. -/
theorem c4_part_a {σ : Type} (T : Transport σ) (eng : Engine) (kwargs : Params) (s s1 : σ)
    (bs : List Nat) (v : Variant)
    (hread : T.read s (some baseSize) = (.ok bs, s1))
    (hlen : ¬ bs.length < baseSize)
    (hv : Engine.lookupVariant eng (Int.ofNat (bs.getD 1 0)) = some v)
    (hmis : Int.ofNat (bs.getD 0 0) ≠ Int.ofNat (PktInstance.get_size (Variant.new v))) :
    pkt_read T eng kwargs s =
      (.error (.packetSizeError [.int (Int.ofNat (bs.getD 0 0)),
        .int (Int.ofNat (PktInstance.get_size (Variant.new v))), .bytes bs]),
       T.flush s1 true) := by
  unfold pkt_read
  rw [hread]
  simp only [if_neg hlen]
  simp only [PktInstance.parse_header, PktInstance.unpack]
  rw [baseSize_eq, getD_take_of_lt bs 2 1 0 (by omega), getD_take_of_lt bs 2 0 0 (by omega)]
  rw [hv]
  simp only []
  rw [if_pos hmis]

/-- Inversion of a successful `pkt_read`: the returned packet's decoded
size field equals the computed size of the variant its discriminator
resolves to. -/
theorem c4_part_b {σ : Type} (T : Transport σ) (eng : Engine) (kwargs : Params) (s s' : σ)
    (p : PktInstance)
    (h : pkt_read T eng kwargs s = (.ok p, s')) :
    ∃ v, Engine.lookupVariant eng p.ptype = some v ∧
      p.size = Int.ofNat (PktInstance.get_size (Variant.new v)) := by
  unfold pkt_read at h
  split at h
  · exact absurd h (by simp)
  next bs s1 heq =>
    split at h
    · exact absurd h (by simp)
    next hlen =>
      simp only [PktInstance.parse_header, PktInstance.unpack] at h
      split at h
      · exact absurd h (by simp)
      next v heqv =>
        split at h
        · exact absurd h (by simp)
        next hguard =>
          have h2 : 2 ≤ bs.length := by
            rw [baseSize_eq] at hlen
            omega
          rw [baseSize_eq] at heqv
          rw [getD_take_of_lt bs 2 1 0 (by omega)] at heqv
          rw [baseSize_eq, getD_take_of_lt bs 2 0 0 (by omega)] at hguard
          split at h
          · split at h
            · exact absurd h (by simp)
            next more s2 heq2 =>
              simp only [Prod.mk.injEq, Except.ok.injEq] at h
              obtain ⟨hp, hs⟩ := h
              refine ⟨v, ?_, ?_⟩
              · rw [← hp]
                simp only [PktInstance.unpack]
                rw [getD_append_of_lt bs more 1 0 (by omega)]
                exact heqv
              · rw [← hp]
                simp only [PktInstance.unpack]
                rw [getD_append_of_lt bs more 0 0 (by omega)]
                exact Decidable.not_not.mp hguard
          next hrm =>
            simp only [Prod.mk.injEq, Except.ok.injEq] at h
            obtain ⟨hp, hs⟩ := h
            refine ⟨v, ?_, ?_⟩
            · rw [← hp]
              simp only [PktInstance.unpack]
              exact heqv
            · rw [← hp]
              simp only [PktInstance.unpack]
              exact Decidable.not_not.mp hguard

/-- Claim C4: when the decoded size field disagrees with the resolved
variant's computed size, `pkt_read` flushes the transport
(`flush(True)`) and raises `PacketSizeError`; consequently every packet
a successful `pkt_read` returns has its decoded size field equal to the
computed size of the variant its discriminator resolved to. -/
theorem c4_size_validation {σ : Type} (T : Transport σ) (eng : Engine) (kwargs : Params) :
    (∀ (s s1 : σ) (bs : List Nat) (v : Variant),
      T.read s (some baseSize) = (.ok bs, s1) →
      ¬ bs.length < baseSize →
      Engine.lookupVariant eng (Int.ofNat (bs.getD 1 0)) = some v →
      Int.ofNat (bs.getD 0 0) ≠ Int.ofNat (PktInstance.get_size (Variant.new v)) →
      pkt_read T eng kwargs s =
        (.error (.packetSizeError [.int (Int.ofNat (bs.getD 0 0)),
          .int (Int.ofNat (PktInstance.get_size (Variant.new v))), .bytes bs]),
         T.flush s1 true)) ∧
    (∀ (s s' : σ) (p : PktInstance),
      pkt_read T eng kwargs s = (.ok p, s') →
      ∃ v, Engine.lookupVariant eng p.ptype = some v ∧
        p.size = Int.ofNat (PktInstance.get_size (Variant.new v))) :=
  ⟨fun s s1 bs v h1 h2 h3 h4 => c4_part_a T eng kwargs s s1 bs v h1 h2 h3 h4,
   fun s s' p h => c4_part_b T eng kwargs s s' p h⟩

theorem c4_size_validation_witness :
    (pkt_read listT engA [] [4, 1, 5, 6] =
      (.error (.packetSizeError [.int 4, .int 6, .bytes [4, 1]]), ([] : List Nat))) ∧
    (∃ v, Engine.lookupVariant engA (PktInstance.mk "PktA" 6 1 [1, 2, 3, 4]).ptype = some v ∧
      (PktInstance.mk "PktA" 6 1 [1, 2, 3, 4]).size =
        Int.ofNat (PktInstance.get_size (Variant.new v))) :=
  ⟨(c4_size_validation listT engA []).1 [4, 1, 5, 6] [5, 6] [4, 1] ⟨"PktA", 1, 4⟩
      rfl (by decide) rfl (by decide),
   (c4_size_validation loopTransport engA []).2
      { lbEmpty with rx_buffer := [6, 1, 1, 2, 3, 4] } lbEmpty
      ⟨"PktA", 6, 1, [1, 2, 3, 4]⟩ rfl⟩

end NpStruct
